import Mathlib

/-!
Shallow embedding of the `rust-fil-sector-builder` repository
(`sector-builder` and `sector-builder-ffi` crates) in Lean 4, together
with theorems settling the specification claims.

Conventions of the embedding:
* machine integers (`u64`, `size_t`) become `Nat` (no arithmetic that can
  overflow is performed by the embedded code paths);
* byte buffers (`Vec<u8>`, `[u8; 32]`) become `List Nat`;
* fallible Rust code (`Result<T, failure::Error>`) becomes `Except Err T`;
* external collaborators (the `filecoin_proofs` crypto library, the
  filesystem, the `SectorManager` store) are passed in as explicit
  function records, exactly at the call signatures the source uses;
* C pointers paired with a length (`*const u8` + `len`) become
  `Option (List Nat)`: `none` models the null pointer with length `0`,
  `some buf` models a pointer to the buffer `buf` with length `buf.length`.
-/

namespace SectorBuilder

/-- Seal ticket (`metadata.rs`, shown in spec §3): chain-derived entropy,
a block height plus 32 ticket bytes. -/
structure SealTicket where
  block_height : Nat
  ticket_bytes : List Nat
  deriving Repr, DecidableEq

/-- Piece metadata (`metadata.rs`, shown in spec §3): key, unpadded length,
optional piece commitment and optional inclusion proof. -/
structure PieceMetadata where
  piece_key : String
  num_bytes : Nat
  comm_p : Option (List Nat)
  piece_inclusion_proof : Option (List Nat)
  deriving Repr, DecidableEq

/-- Persistent auxiliary commitments (`p_aux` in spec §3). -/
structure PersistentAux where
  comm_c : List Nat
  comm_r_last : List Nat
  deriving Repr, DecidableEq

/-- Sealed-sector metadata as constructed by
`SimpleSectorBuilder::seal_staged_sector` (`simple_builder.rs`, lines 154-165). -/
structure SealedSectorMetadata where
  sector_id : Nat
  sector_access : String
  pieces : List PieceMetadata
  p_aux : PersistentAux
  comm_r : List Nat
  comm_d : List Nat
  proof : List Nat
  blake2b_checksum : List Nat
  len : Nat
  seal_ticket : SealTicket
  deriving Repr, DecidableEq

/-- Seal status of a staged sector. The constructors are those used by the
code under `src/` (`SealStatus::Pending`, `Sealing(ticket)`, `Sealed(_)`,
`Failed(reason)` in `simple_builder.rs` / `api.rs`) together with the
remaining states listed in spec §3 (`ReadyForSealing`, `Paused`). -/
inductive SealStatus where
  | Pending : SealStatus
  | ReadyForSealing : SealStatus
  | Paused : SealStatus
  | Sealing : SealTicket → SealStatus
  | Sealed : SealedSectorMetadata → SealStatus
  | Failed : String → SealStatus
  deriving Repr, DecidableEq

/-- Staged-sector metadata (`metadata.rs`, shown in spec §3). -/
structure StagedSectorMetadata where
  sector_id : Nat
  sector_access : String
  pieces : List PieceMetadata
  seal_status : SealStatus
  deriving Repr, DecidableEq

/-- Variants of `SectorBuilderErr`. Modelled from the spec: `error.rs` is not
under `src/`; the variants and their payloads are exactly those matched by
`err_code_and_msg` in `responses.rs` (lines 91-97) and described in spec §7
(piece too large / overflow, short write, unrecoverable, piece key not
found). -/
inductive SectorBuilderErr where
  | OverflowError : Nat → Nat → SectorBuilderErr
  | IncompleteWriteError : Nat → Nat → SectorBuilderErr
  | Unrecoverable : String → SectorBuilderErr
  | PieceNotFound : String → SectorBuilderErr
  deriving Repr, DecidableEq

/-- Variants of `SectorManagerErr`. Modelled from the spec: the store module
is not under `src/`; the variants are exactly those matched by
`err_code_and_msg` in `responses.rs` (lines 100-102) and the three error
classes of spec §7. -/
inductive SectorManagerErr where
  | UnclassifiedError : String → SectorManagerErr
  | CallerError : String → SectorManagerErr
  | ReceiverError : String → SectorManagerErr
  deriving Repr, DecidableEq

/-- A `failure::Error` as the FFI boundary sees it: it either downcasts to a
`SectorBuilderErr`, downcasts to a `SectorManagerErr`, or is some other
error (downcasts fail), carrying a display message. -/
inductive Err where
  | sectorBuilder : SectorBuilderErr → Err
  | sectorManager : SectorManagerErr → Err
  | other : String → Err
  deriving Repr, DecidableEq

/-- Display message of an error (the `format!("{}", err)` string). The exact
rendering of the structured variants is irrelevant to every claim; only the
constructor structure is inspected by the embedded code. -/
def errMsg : Err → String
  | Err.sectorBuilder (SectorBuilderErr.OverflowError _ _) => "OverflowError"
  | Err.sectorBuilder (SectorBuilderErr.IncompleteWriteError _ _) => "IncompleteWriteError"
  | Err.sectorBuilder (SectorBuilderErr.Unrecoverable m) => m
  | Err.sectorBuilder (SectorBuilderErr.PieceNotFound k) => "PieceNotFound: " ++ k
  | Err.sectorManager (SectorManagerErr.UnclassifiedError m) => m
  | Err.sectorManager (SectorManagerErr.CallerError m) => m
  | Err.sectorManager (SectorManagerErr.ReceiverError m) => m
  | Err.other m => m

/-- `err_unrecov` (`error.rs`, used by `simple_builder.rs` line 170).
Modelled from the spec: it wraps an arbitrary error into the
`SectorBuilderErr::Unrecoverable` variant ("fatal and marked unrecoverable",
spec §7), keeping its display message. -/
def err_unrecov (e : Err) : Err :=
  Err.sectorBuilder (SectorBuilderErr.Unrecoverable (errMsg e))

/-- `err_piecenotfound` (`error.rs`, used by `simple_builder.rs` line 258).
Modelled from the spec: it builds the `PieceNotFound` caller error for the
given key. -/
def err_piecenotfound (key : String) : Err :=
  Err.sectorBuilder (SectorBuilderErr.PieceNotFound key)

/-- PoRep configuration (`filecoin_proofs::types::PoRepConfig`, external):
a sector size paired with a partition count, obtained from the
`SectorClass`. Its contents are never inspected by the embedded code. -/
structure PoRepConfig where
  sector_size : Nat
  partitions : Nat
  deriving Repr, DecidableEq

/-- Output of the external `filecoin_proofs::seal` (spec §6): commitments,
persistent aux, SNARK proof, and one piece commitment and one inclusion
proof per piece. -/
structure SealOutput where
  comm_r : List Nat
  comm_d : List Nat
  p_aux : PersistentAux
  proof : List Nat
  comm_ps : List (List Nat)
  piece_inclusion_proofs : List (List Nat)
  deriving Repr, DecidableEq

/-- `SealTaskPrototype` (`worker.rs`, fields as consumed by
`simple_builder.rs` lines 341-349). -/
structure SealTaskPrototype where
  piece_lens : List Nat
  porep_config : PoRepConfig
  seal_ticket : SealTicket
  sealed_sector_access : String
  sealed_sector_path : String
  sector_id : Nat
  staged_sector_path : String
  deriving Repr, DecidableEq

/-- `UnsealTaskPrototype` (`worker.rs`, fields as consumed by
`simple_builder.rs` lines 273-288). -/
structure UnsealTaskPrototype where
  comm_d : List Nat
  porep_config : PoRepConfig
  source_path : String
  destination_path : String
  sector_id : Nat
  piece_start_byte : Nat
  piece_len : Nat
  seal_ticket : SealTicket
  deriving Repr, DecidableEq

/-- The `SectorManager` operations used by `simple_builder.rs` (the store
lives outside `src/`; spec §4.A gives the contract). Accesses and paths are
strings; `read_raw miner path offset length` yields bytes. -/
structure SectorManager where
  new_sealed_sector_access : String → Nat → Except Err String
  new_staging_sector_access : String → Nat → Bool → Except Err String
  sealed_sector_path : String → String → String
  staged_sector_path : String → String → String
  read_raw : String → String → Nat → Nat → Except Err (List Nat)

/-- The external `filecoin_proofs` operations used by `simple_builder.rs`
(spec §6 collaborator contracts), at the exact call signatures of the
source: `seal cfg staged_path sealed_path prover_id sector_id ticket_bytes
piece_lens`, `get_unsealed_range cfg src dest prover_id sector_id comm_d
ticket_bytes start len`, and `get_piece_start_byte piece_lengths num_bytes`. -/
structure ProofsApi where
  «seal» : PoRepConfig → String → String → List Nat → Nat → List Nat → List Nat →
    Except Err SealOutput
  get_unsealed_range : PoRepConfig → String → String → List Nat → Nat → List Nat →
    List Nat → Nat → Nat → Except Err Nat
  get_piece_start_byte : List Nat → Nat → Nat

/-- Filesystem-derived helpers used by `seal_staged_sector`:
`helpers::calculate_checksum` (BLAKE2b of a file, spec §4.A) and
`std::fs::metadata(..).len()`. -/
structure FsOps where
  calculate_checksum : String → Except Err (List Nat)
  file_len : String → Except Err Nat

/-- `SimpleSectorBuilder::create_seal_task_proto` (`simple_builder.rs`,
lines 309-350): allocate a sealed-sector access, derive both paths and the
piece lengths, set the staged sector's status to `Sealing(ticket)` ("such
that we don't try to write any more pieces to it"), and return the
prototype. The Rust mutation of `staged_sector` is modelled by returning
the updated record alongside the prototype. -/
def create_seal_task_proto (mgr : SectorManager) (porep_config : PoRepConfig)
    (miner : String) (staged_sector : StagedSectorMetadata) (seal_ticket : SealTicket) :
    Except Err (SealTaskPrototype × StagedSectorMetadata) :=
  match mgr.new_sealed_sector_access miner staged_sector.sector_id with
  | Except.error e => Except.error e
  | Except.ok sealed_sector_access =>
    let sealed_sector_path := mgr.sealed_sector_path miner sealed_sector_access
    let staged_sector_path := mgr.staged_sector_path miner staged_sector.sector_access
    let piece_lens := staged_sector.pieces.map (fun p => p.num_bytes)
    let staged' := { staged_sector with seal_status := SealStatus.Sealing seal_ticket }
    Except.ok
      ({ piece_lens := piece_lens
         porep_config := porep_config
         seal_ticket := seal_ticket
         sealed_sector_access := sealed_sector_access
         sealed_sector_path := sealed_sector_path
         sector_id := staged_sector.sector_id
         staged_sector_path := staged_sector_path },
       staged')

/-- `SimpleSectorBuilder::seal_staged_sector` (`simple_builder.rs`, lines
101-172): build the seal prototype (mutating the staged sector's status to
`Sealing`), run the external seal, then checksum and measure the sealed
file, zip the staged pieces with the returned piece commitments and
inclusion proofs, and assemble the `SealedSectorMetadata`. Every error of
the post-prototype chain is wrapped by `err_unrecov`. The pair returned is
(the Rust return value, the staged sector after the call). -/
def seal_staged_sector (mgr : SectorManager) (api : ProofsApi) (fs : FsOps)
    (porep_config : PoRepConfig) (miner : String)
    (staged_sector : StagedSectorMetadata) (prover_id : List Nat)
    (seal_ticket : SealTicket) :
    Except Err SealedSectorMetadata × StagedSectorMetadata :=
  match create_seal_task_proto mgr porep_config miner staged_sector seal_ticket with
  | Except.error e => (Except.error e, staged_sector)
  | Except.ok (proto, staged') =>
    let result := api.«seal» proto.porep_config proto.staged_sector_path
      proto.sealed_sector_path prover_id proto.sector_id seal_ticket.ticket_bytes
      proto.piece_lens
    let chained : Except Err SealedSectorMetadata :=
      match result with
      | Except.error e => Except.error e
      | Except.ok output =>
        match fs.calculate_checksum proto.sealed_sector_path with
        | Except.error e => Except.error e
        | Except.ok blake2b_checksum =>
          match fs.file_len proto.sealed_sector_path with
          | Except.error e => Except.error e
          | Except.ok len =>
            let pieces := ((staged'.pieces.zip output.comm_ps).zip
                output.piece_inclusion_proofs).map
              (fun pp =>
                { piece_key := pp.1.1.piece_key
                  num_bytes := pp.1.1.num_bytes
                  comm_p := some pp.1.2
                  piece_inclusion_proof := some pp.2 })
            Except.ok
              { sector_id := staged'.sector_id
                sector_access := proto.sealed_sector_access
                pieces := pieces
                p_aux := output.p_aux
                comm_r := output.comm_r
                comm_d := output.comm_d
                proof := output.proof
                blake2b_checksum := blake2b_checksum
                len := len
                seal_ticket := seal_ticket }
    (chained.mapError err_unrecov, staged')

/-- `SimpleSectorBuilder::create_retrieve_piece_task_proto`
(`simple_builder.rs`, lines 248-289): find the piece by key (else
`err_piecenotfound`), take the lengths of the pieces before the first piece
with that key, allocate a staging access for the unseal destination, and
build the prototype with `piece_start_byte = get_piece_start_byte
piece_lengths piece.num_bytes` and `piece_len = piece.num_bytes`. -/
def create_retrieve_piece_task_proto (mgr : SectorManager) (api : ProofsApi)
    (porep_config : PoRepConfig) (miner : String)
    (sealed_sector : SealedSectorMetadata) (piece_key : String) :
    Except Err UnsealTaskPrototype :=
  match sealed_sector.pieces.find? (fun p => p.piece_key == piece_key) with
  | none => Except.error (err_piecenotfound piece_key)
  | some piece =>
    let piece_lengths := (sealed_sector.pieces.takeWhile
      (fun p => p.piece_key != piece_key)).map (fun p => p.num_bytes)
    match mgr.new_staging_sector_access miner sealed_sector.sector_id true with
    | Except.error e => Except.error e
    | Except.ok staged_sector_access =>
      Except.ok
        { comm_d := sealed_sector.comm_d
          porep_config := porep_config
          source_path := mgr.sealed_sector_path miner sealed_sector.sector_access
          destination_path := mgr.staged_sector_path miner staged_sector_access
          sector_id := sealed_sector.sector_id
          piece_start_byte := api.get_piece_start_byte piece_lengths piece.num_bytes
          piece_len := piece.num_bytes
          seal_ticket := sealed_sector.seal_ticket }

/-- `SimpleSectorBuilder::read_unsealed_bytes_from` (`simple_builder.rs`,
lines 291-307): on success of the unseal, read `n` bytes from the
destination file starting at offset `0`. -/
def read_unsealed_bytes_from (mgr : SectorManager) (miner : String)
    (result : Except Err (Nat × String)) : Except Err (List Nat) :=
  match result with
  | Except.error e => Except.error e
  | Except.ok np => mgr.read_raw miner np.2 0 np.1

/-- `SimpleSectorBuilder::read_piece_from_sealed_sector`
(`simple_builder.rs`, lines 77-99): build the retrieve prototype, invoke the
external `get_unsealed_range` at the prototype's range, pair the number of
unsealed bytes with the destination path, and read the bytes back. -/
def read_piece_from_sealed_sector (mgr : SectorManager) (api : ProofsApi)
    (porep_config : PoRepConfig) (miner : String)
    (sealed_sector : SealedSectorMetadata) (piece_key : String)
    (prover_id : List Nat) : Except Err (List Nat) :=
  match create_retrieve_piece_task_proto mgr api porep_config miner sealed_sector piece_key with
  | Except.error e => Except.error e
  | Except.ok proto =>
    let result := (api.get_unsealed_range proto.porep_config proto.source_path
        proto.destination_path prover_id proto.sector_id proto.comm_d
        proto.seal_ticket.ticket_bytes proto.piece_start_byte proto.piece_len).map
      (fun num_bytes_unsealed => (num_bytes_unsealed, proto.destination_path))
    read_unsealed_bytes_from mgr miner result

/-- Result of `fs::metadata` on a path, as consumed by `ensure_file`:
whether the entry is a regular file, and its length in bytes. The
filesystem itself is a function `String → Option FileMetadata`, `none`
meaning the stat fails (file absent). -/
structure FileMetadata where
  is_file : Bool
  len : Nat
  deriving Repr, DecidableEq

/-- The four parameter-cache paths derived from a `SectorClass` by the
external `filecoin_proofs` config types (`builder.rs`, lines 224-243):
per proof kind (PoRep, PoSt) a verifying-key path and a Groth-parameters
path. -/
structure SectorClassPaths where
  porep_cache_key : String
  porep_cache_params : String
  post_cache_key : String
  post_cache_params : String
  deriving Repr, DecidableEq

/-- `ensure_file` (`builder.rs`, lines 258-268): stat the path (error if
that fails), require a regular file, require length `> 0`. -/
def ensure_file (stat : String → Option FileMetadata) (p : String) : Except Err Unit :=
  match stat p with
  | none => Except.error (Err.other ("Failed to stat: " ++ p))
  | some metadata =>
    if !metadata.is_file then Except.error (Err.other ("Not a file: " ++ p))
    else if !(decide (metadata.len > 0)) then Except.error (Err.other ("Empty file: " ++ p))
    else Except.ok ()

/-- `ensure_parameter_cache_hydrated` (`builder.rs`, lines 222-246): check
the PoRep verifying key, the PoRep Groth parameters, the PoSt verifying
key and the PoSt Groth parameters in that order, wrapping each failure in a
"missing ..." message. -/
def ensure_parameter_cache_hydrated (stat : String → Option FileMetadata)
    (sector_class : SectorClassPaths) : Except Err Unit :=
  match ensure_file stat sector_class.porep_cache_key with
  | Except.error e =>
      Except.error (Err.other ("missing verifying key for PoRep: " ++ errMsg e))
  | Except.ok _ =>
    match ensure_file stat sector_class.porep_cache_params with
    | Except.error e =>
        Except.error (Err.other ("missing Groth parameters for PoRep: " ++ errMsg e))
    | Except.ok _ =>
      match ensure_file stat sector_class.post_cache_key with
      | Except.error e =>
          Except.error (Err.other ("missing verifying key for PoSt: " ++ errMsg e))
      | Except.ok _ =>
        match ensure_file stat sector_class.post_cache_params with
        | Except.error e =>
            Except.error (Err.other ("missing Groth parameters for PoSt: " ++ errMsg e))
        | Except.ok _ => Except.ok ()

/-- Boolean form of the hydration condition for one path: the file exists
(stat succeeds), is a regular file, and is non-empty. -/
def goodFile (stat : String → Option FileMetadata) (p : String) : Bool :=
  match stat p with
  | none => false
  | some metadata => metadata.is_file && decide (metadata.len > 0)

/-- `SimpleSectorBuilder::new` (`simple_builder.rs`, lines 23-37): check the
parameter cache, then build the store (external) and the builder record.
Only the success/failure of the hydration check is state-relevant; the
record keeps `max_num_staged_sectors`. -/
def SimpleSectorBuilder_new (stat : String → Option FileMetadata)
    (sector_class : SectorClassPaths) (max_num_staged_sectors : Nat) :
    Except Err Nat :=
  match ensure_parameter_cache_hydrated stat sector_class with
  | Except.error e => Except.error e
  | Except.ok _ => Except.ok max_num_staged_sectors

/-- Snapshot key (`helpers::SnapshotKey::new(prover_id, sector_size)`,
`builder.rs` line 84). Modelled from the spec: keys combine prover_id and
sector_size (spec §4.B). -/
structure SnapshotKey where
  prover_id : List Nat
  sector_size : Nat
  deriving Repr, DecidableEq

/-- State of a `SectorBuilder` (`state.rs`, shown in spec §3): staged and
sealed sector maps plus `last_committed_sector_id`. Maps are modelled as
association lists keyed by sector id. -/
structure SectorBuilderState where
  staged : List (Nat × StagedSectorMetadata)
  sealed : List (Nat × SealedSectorMetadata)
  last_committed_sector_id : Nat
  deriving Repr, DecidableEq

/-- `SectorBuilderState::new(last_committed_sector_id)` (`builder.rs` line
88). Modelled from the spec: a fresh state has no staged and no sealed
sectors and the supplied `last_committed_sector_id` (spec §3, §8). -/
def SectorBuilderState.new (last_committed_sector_id : Nat) : SectorBuilderState :=
  { staged := []
    sealed := []
    last_committed_sector_id := last_committed_sector_id }

/-- The `SectorMetadataManager` fields built by `init_from_metadata`
(`builder.rs`, lines 94-102) that are pure state (the kv store and sector
store handles are externals). -/
structure SectorMetadataManager where
  state : SectorBuilderState
  max_num_staged_sectors : Nat
  max_user_bytes_per_staged_sector : Nat
  prover_id : List Nat
  sector_size : Nat
  deriving Repr, DecidableEq

/-- `SectorBuilder::init_from_metadata` (`builder.rs`, lines 42-112): check
the parameter cache (line 51), then build the scheduler's initial state
(lines 82-89): load the snapshot stored under
`SnapshotKey::new(prover_id, sector_size)`; if one exists use it, otherwise
use `SectorBuilderState::new(last_committed_sector_id)`; assemble the
`SectorMetadataManager` (lines 94-102). Modelled from the spec where the
source is outside `src/`: `helpers::load_snapshot` returns the state
persisted under the key (spec §4.B, §6 metadata layout), embodied here as
the kv-store function `kv_get : SnapshotKey → Option SectorBuilderState`. -/
def init_from_metadata (stat : String → Option FileMetadata)
    (sector_class : SectorClassPaths)
    (kv_get : SnapshotKey → Option SectorBuilderState)
    (last_committed_sector_id : Nat) (prover_id : List Nat) (sector_size : Nat)
    (max_num_staged_sectors : Nat) (max_user_bytes_per_staged_sector : Nat) :
    Except Err SectorMetadataManager :=
  match ensure_parameter_cache_hydrated stat sector_class with
  | Except.error e => Except.error e
  | Except.ok _ =>
    let state :=
      match kv_get (SnapshotKey.mk prover_id sector_size) with
      | some loaded => loaded
      | none => SectorBuilderState.new last_committed_sector_id
    Except.ok
      { state := state
        max_num_staged_sectors := max_num_staged_sectors
        max_user_bytes_per_staged_sector := max_user_bytes_per_staged_sector
        prover_id := prover_id
        sector_size := sector_size }

/-- Boolean success test for `Except` values (used to phrase `is_ok`-style
facts about the embedded fallible code). -/
def isOkB {α : Type} : Except Err α → Bool
  | Except.ok _ => true
  | Except.error _ => false

/-- Boolean test for the `Failed` seal status. -/
def SealStatus.isFailed : SealStatus → Bool
  | SealStatus.Failed _ => true
  | _ => false

end SectorBuilder

namespace Fixtures

open SectorBuilder

/-- Concrete seal ticket for witnesses. -/
def cTicket : SealTicket :=
  { block_height := 100, ticket_bytes := List.replicate 32 7 }

/-- Concrete PoRep config for witnesses. -/
def cPorep : PoRepConfig := { sector_size := 1024, partitions := 2 }

/-- Concrete prover id for witnesses. -/
def cProver : List Nat := List.replicate 32 9

/-- Concrete staged sector holding two pieces, for witnesses. -/
def cStaged : StagedSectorMetadata :=
  { sector_id := 1
    sector_access := "staged-1"
    pieces := [{ piece_key := "a", num_bytes := 127, comm_p := none,
                 piece_inclusion_proof := none },
               { piece_key := "k", num_bytes := 500, comm_p := none,
                 piece_inclusion_proof := none }]
    seal_status := SealStatus.Pending }

/-- Concrete sector manager for witnesses: constant access names,
miner-qualified paths, and raw reads returning `n` bytes of value `5`. -/
def cMgr : SectorManager :=
  { new_sealed_sector_access := fun _ _ => Except.ok "sa"
    new_staging_sector_access := fun _ _ _ => Except.ok "ua"
    sealed_sector_path := fun miner access => miner ++ "/sealed/" ++ access
    staged_sector_path := fun miner access => miner ++ "/staged/" ++ access
    read_raw := fun _ _ _ n => Except.ok (List.replicate n 5) }

/-- Concrete seal output with one piece commitment and one inclusion proof
per piece of `cStaged`. -/
def cOutput : SealOutput :=
  { comm_r := List.replicate 32 1
    comm_d := List.replicate 32 2
    p_aux := { comm_c := [3], comm_r_last := [4] }
    proof := [9, 9]
    comm_ps := [List.replicate 32 11, List.replicate 32 12]
    piece_inclusion_proofs := [[21], [22]] }

/-- Concrete proofs API whose seal succeeds with `cOutput` and whose unseal
reports the requested length. -/
def cApiOk : ProofsApi :=
  { «seal» := fun _ _ _ _ _ _ _ => Except.ok cOutput
    get_unsealed_range := fun _ _ _ _ _ _ _ _ len => Except.ok len
    get_piece_start_byte := fun piece_lengths _ => piece_lengths.sum }

/-- Concrete proofs API whose seal fails with an external library error. -/
def cApiErr : ProofsApi :=
  { «seal» := fun _ _ _ _ _ _ _ => Except.error (Err.other "seal failed")
    get_unsealed_range := fun _ _ _ _ _ _ _ _ len => Except.ok len
    get_piece_start_byte := fun piece_lengths _ => piece_lengths.sum }

/-- Concrete filesystem helpers for witnesses. -/
def cFs : FsOps :=
  { calculate_checksum := fun _ => Except.ok (List.replicate 32 8)
    file_len := fun _ => Except.ok 1024 }

/-- Concrete sealed sector with three pieces of pairwise-distinct keys, for
the unseal witnesses. -/
def cSealed : SealedSectorMetadata :=
  { sector_id := 1
    sector_access := "sa"
    pieces := [{ piece_key := "a", num_bytes := 127,
                 comm_p := some (List.replicate 32 11),
                 piece_inclusion_proof := some [21] },
               { piece_key := "k", num_bytes := 500,
                 comm_p := some (List.replicate 32 12),
                 piece_inclusion_proof := some [22] },
               { piece_key := "c", num_bytes := 64,
                 comm_p := some (List.replicate 32 13),
                 piece_inclusion_proof := some [23] }]
    p_aux := { comm_c := [3], comm_r_last := [4] }
    comm_r := List.replicate 32 1
    comm_d := List.replicate 32 2
    proof := [9, 9]
    blake2b_checksum := List.replicate 32 8
    len := 1024
    seal_ticket := cTicket }

/-- Concrete stat function under which all four parameter-cache files are
present, regular, and non-empty. -/
def cStatGood : String → Option FileMetadata :=
  fun _ => some { is_file := true, len := 10 }

/-- Concrete snapshot store for the restart witness: it holds one snapshot
under the key of prover `cProver`, sector size `1024`. -/
def cKv : SnapshotKey → Option SectorBuilderState :=
  fun key =>
    if key = SnapshotKey.mk cProver 1024 then
      some { staged := [(1, cStaged)], sealed := [], last_committed_sector_id := 5 }
    else
      none

end Fixtures

namespace FfiResponses

open SectorBuilder

/-- Response status codes (`responses.rs`, lines 39-45). -/
inductive FCPResponseStatus where
  | FCPNoError : FCPResponseStatus
  | FCPUnclassifiedError : FCPResponseStatus
  | FCPCallerError : FCPResponseStatus
  | FCPReceiverError : FCPResponseStatus
  deriving Repr, DecidableEq

/-- `err_code_and_msg` (`responses.rs`, lines 84-107): first try to downcast
to `SectorBuilderErr`, then to `SectorManagerErr`, else unclassified. The
returned string models the C string the pointer points at. -/
def err_code_and_msg (err : Err) : FCPResponseStatus × String :=
  match err with
  | Err.sectorBuilder (SectorBuilderErr.OverflowError _ _) =>
      (FCPResponseStatus.FCPCallerError, errMsg err)
  | Err.sectorBuilder (SectorBuilderErr.IncompleteWriteError _ _) =>
      (FCPResponseStatus.FCPReceiverError, errMsg err)
  | Err.sectorBuilder (SectorBuilderErr.Unrecoverable _) =>
      (FCPResponseStatus.FCPReceiverError, errMsg err)
  | Err.sectorBuilder (SectorBuilderErr.PieceNotFound _) =>
      (FCPResponseStatus.FCPCallerError, errMsg err)
  | Err.sectorManager (SectorManagerErr.UnclassifiedError _) =>
      (FCPResponseStatus.FCPUnclassifiedError, errMsg err)
  | Err.sectorManager (SectorManagerErr.CallerError _) =>
      (FCPResponseStatus.FCPCallerError, errMsg err)
  | Err.sectorManager (SectorManagerErr.ReceiverError _) =>
      (FCPResponseStatus.FCPReceiverError, errMsg err)
  | Err.other _ =>
      (FCPResponseStatus.FCPUnclassifiedError, errMsg err)

/-- `FFIPieceMetadata` (`responses.rs`, lines 401-407). The
`piece_inclusion_proof_ptr`/`piece_inclusion_proof_len` pair is modelled as
`Option (List Nat)`: `none` is the null pointer with length `0`. -/
structure FFIPieceMetadata where
  piece_key : String
  num_bytes : Nat
  comm_p : List Nat
  piece_inclusion_proof : Option (List Nat)
  deriving Repr, DecidableEq

/-- `impl From<PieceMetadata> for FFIPieceMetadata` (`responses.rs`, lines
409-433): an absent proof becomes `(null, 0)`; an absent `comm_p` becomes
the all-zero 32-byte array. -/
def ffiPieceMetadataFrom (meta : PieceMetadata) : FFIPieceMetadata :=
  { piece_key := meta.piece_key
    num_bytes := meta.num_bytes
    comm_p := meta.comm_p.getD (List.replicate 32 0)
    piece_inclusion_proof := meta.piece_inclusion_proof }

end FfiResponses

namespace FfiApi

open SectorBuilder FfiResponses

/-- `into_ffi_piece_metadata` (`api.rs`, lines 1122-1144); its body is the
same conversion as the `From` impl in `responses.rs`. -/
def into_ffi_piece_metadata (piece_metadata : PieceMetadata) : FFIPieceMetadata :=
  { piece_key := piece_metadata.piece_key
    num_bytes := piece_metadata.num_bytes
    comm_p := piece_metadata.comm_p.getD (List.replicate 32 0)
    piece_inclusion_proof := piece_metadata.piece_inclusion_proof }

/-- `FFISealedSectorMetadata` as the conversion in `api.rs` reads it
(fields accessed at lines 977-994: `sector_id`, `sector_access`, `pieces`,
`comm_r_star`, `comm_r`, `comm_d`, `proofs`). -/
structure FFISealedSectorMetadata where
  comm_d : List Nat
  comm_r : List Nat
  comm_r_star : List Nat
  pieces : List FFIPieceMetadata
  proofs : List Nat
  sector_access : String
  sector_id : Nat
  deriving Repr, DecidableEq

/-- The sealed-sector metadata record as the FFI crate's
`into_sealed_sector_metadata` constructs it (`api.rs`, lines 978-994):
this view of the `sector-builder` metadata carries `comm_r_star` and the
checksum/length fields. -/
structure SealedSectorMetadataApiView where
  sector_id : Nat
  sector_access : String
  pieces : List PieceMetadata
  comm_r_star : List Nat
  comm_r : List Nat
  comm_d : List Nat
  proof : List Nat
  blake2b_checksum : List Nat
  len : Nat
  deriving Repr, DecidableEq

/-- `into_sealed_sector_metadata` (`api.rs`, lines 973-995): rebuilds the
native metadata from the FFI struct; `blake2b_checksum` is left at
`Default::default()` (the empty vector) and `len` at `0`, both marked
"unset" in the source. A null proof pointer is read back as the empty
buffer (`from_raw_parts(ptr, 0).to_vec()`). -/
def into_sealed_sector_metadata (s : FFISealedSectorMetadata) : SealedSectorMetadataApiView :=
  { sector_id := s.sector_id
    sector_access := s.sector_access
    pieces := s.pieces.map (fun p =>
      { piece_key := p.piece_key
        num_bytes := p.num_bytes
        comm_p := some p.comm_p
        piece_inclusion_proof := some (p.piece_inclusion_proof.getD []) })
    comm_r_star := s.comm_r_star
    comm_r := s.comm_r
    comm_d := s.comm_d
    proof := s.proofs
    blake2b_checksum := []
    len := 0 }

end FfiApi

namespace SectorBuilderClaims

open SectorBuilder FfiResponses FfiApi Fixtures

/-- With pairwise-distinct keys, a split of the piece list at the piece with
key `k` has no key-`k` piece in the prefix. -/
theorem nodup_split_keys {pre post : List PieceMetadata} {piece : PieceMetadata} {k : String}
    (hnd : (((pre ++ piece :: post).map PieceMetadata.piece_key)).Nodup)
    (hkey : piece.piece_key = k) :
    ∀ q ∈ pre, q.piece_key ≠ k := by
  intro q hq hqk
  rw [List.map_append] at hnd
  rcases List.nodup_append.mp hnd with ⟨-, -, hdisj⟩
  exact hdisj (List.mem_map_of_mem PieceMetadata.piece_key hq)
    (by simp [hqk, hkey])

/-- `find?` locates the distinguished piece of a split whose prefix avoids
the key. -/
theorem find?_piece_of_split {pre post : List PieceMetadata} {piece : PieceMetadata} {k : String}
    (hkey : piece.piece_key = k) (hpre : ∀ q ∈ pre, q.piece_key ≠ k) :
    (pre ++ piece :: post).find? (fun p => p.piece_key == k) = some piece := by
  induction pre with
  | nil =>
    have hp : (piece.piece_key == k) = true := by simp [hkey]
    simp [List.find?_cons, hp]
  | cons q pre ih =>
    have hq : (q.piece_key == k) = false := by
      simp [hpre q (List.mem_cons_self q pre)]
    simp only [List.cons_append, List.find?_cons, hq]
    exact ih (fun r hr => hpre r (List.mem_cons_of_mem q hr))

/-- `takeWhile` keeps exactly the prefix of a split whose prefix avoids the
key. -/
theorem takeWhile_piece_of_split {pre post : List PieceMetadata} {piece : PieceMetadata}
    {k : String}
    (hkey : piece.piece_key = k) (hpre : ∀ q ∈ pre, q.piece_key ≠ k) :
    (pre ++ piece :: post).takeWhile (fun p => p.piece_key != k) = pre := by
  induction pre with
  | nil =>
    have hp : (piece.piece_key != k) = false := by simp [hkey]
    simp [List.takeWhile_cons, hp]
  | cons q pre ih =>
    have hq : (q.piece_key != k) = true := by
      simp [hpre q (List.mem_cons_self q pre)]
    simp only [List.cons_append, List.takeWhile_cons, hq, if_true]
    rw [ih (fun r hr => hpre r (List.mem_cons_of_mem q hr))]

/-- Shape of `create_retrieve_piece_task_proto` on a sector whose keys are
pairwise distinct: shared helper behind the unseal claims. -/
theorem create_retrieve_proto_eq {mgr : SectorManager} {api : ProofsApi}
    {porep : PoRepConfig} {miner : String} {sealed : SealedSectorMetadata}
    {k : String} {pre post : List PieceMetadata} {piece : PieceMetadata} {acc : String}
    (hnd : (sealed.pieces.map PieceMetadata.piece_key).Nodup)
    (hsplit : sealed.pieces = pre ++ piece :: post)
    (hkey : piece.piece_key = k)
    (halloc : mgr.new_staging_sector_access miner sealed.sector_id true = Except.ok acc) :
    create_retrieve_piece_task_proto mgr api porep miner sealed k =
      Except.ok
        { comm_d := sealed.comm_d
          porep_config := porep
          source_path := mgr.sealed_sector_path miner sealed.sector_access
          destination_path := mgr.staged_sector_path miner acc
          sector_id := sealed.sector_id
          piece_start_byte :=
            api.get_piece_start_byte (pre.map (fun p => p.num_bytes)) piece.num_bytes
          piece_len := piece.num_bytes
          seal_ticket := sealed.seal_ticket } := by
  have hpre : ∀ q ∈ pre, q.piece_key ≠ k :=
    nodup_split_keys (hsplit ▸ hnd) hkey
  unfold create_retrieve_piece_task_proto
  rw [hsplit, find?_piece_of_split hkey hpre, takeWhile_piece_of_split hkey hpre, halloc]


/-- Mapping the double zip of pieces with per-piece commitments and proofs
(as `seal_staged_sector` builds the sealed piece list) preserves keys and
sizes in order and makes both optional fields present, provided one
commitment and one proof exist per piece. -/
theorem zip_pieces_spec :
    ∀ (xs : List PieceMetadata) (cs ps : List (List Nat)),
      cs.length = xs.length → ps.length = xs.length →
      (((xs.zip cs).zip ps).map (fun pp =>
          ({ piece_key := pp.1.1.piece_key
             num_bytes := pp.1.1.num_bytes
             comm_p := some pp.1.2
             piece_inclusion_proof := some pp.2 } : PieceMetadata))).map
            PieceMetadata.piece_key = xs.map PieceMetadata.piece_key ∧
      (((xs.zip cs).zip ps).map (fun pp =>
          ({ piece_key := pp.1.1.piece_key
             num_bytes := pp.1.1.num_bytes
             comm_p := some pp.1.2
             piece_inclusion_proof := some pp.2 } : PieceMetadata))).map
            PieceMetadata.num_bytes = xs.map PieceMetadata.num_bytes ∧
      ∀ p ∈ ((xs.zip cs).zip ps).map (fun pp =>
          ({ piece_key := pp.1.1.piece_key
             num_bytes := pp.1.1.num_bytes
             comm_p := some pp.1.2
             piece_inclusion_proof := some pp.2 } : PieceMetadata)),
        p.comm_p.isSome = true ∧ p.piece_inclusion_proof.isSome = true := by
  intro xs
  induction xs with
  | nil => intro cs ps h1 h2; simp
  | cons x xs ih =>
    intro cs ps h1 h2
    cases cs with
    | nil => simp at h1
    | cons c cs =>
      cases ps with
      | nil => simp at h2
      | cons p ps =>
        obtain ⟨ha, hb, hc⟩ := ih cs ps (by simpa using h1) (by simpa using h2)
        refine ⟨by simp only [List.zip_cons_cons, List.map_cons, ha],
          by simp only [List.zip_cons_cons, List.map_cons, hb], ?_⟩
        intro q hq
        simp only [List.zip_cons_cons, List.map_cons, List.mem_cons] at hq
        rcases hq with hq | hq
        · subst hq; exact ⟨rfl, rfl⟩
        · exact hc q hq

/-- C2: a successful `seal_staged_sector` returns sealed metadata whose
pieces carry the staged pieces' keys and sizes in the same order, with
`comm_p` and `piece_inclusion_proof` present on every piece, given that
the external seal produced one piece commitment and one inclusion proof per
piece. -/
theorem seal_staged_sector_pieces {mgr : SectorManager} {api : ProofsApi} {fs : FsOps}
    {porep : PoRepConfig} {miner : String} {staged : StagedSectorMetadata}
    {prover : List Nat} {ticket : SealTicket} {acc : String} {output : SealOutput}
    {ck : List Nat} {n : Nat}
    (halloc : mgr.new_sealed_sector_access miner staged.sector_id = Except.ok acc)
    (hseal : api.«seal» porep (mgr.staged_sector_path miner staged.sector_access)
      (mgr.sealed_sector_path miner acc) prover staged.sector_id ticket.ticket_bytes
      (staged.pieces.map (fun p => p.num_bytes)) = Except.ok output)
    (hck : fs.calculate_checksum (mgr.sealed_sector_path miner acc) = Except.ok ck)
    (hlen : fs.file_len (mgr.sealed_sector_path miner acc) = Except.ok n)
    (hcs : output.comm_ps.length = staged.pieces.length)
    (hps : output.piece_inclusion_proofs.length = staged.pieces.length) :
    ∃ meta : SealedSectorMetadata,
      (seal_staged_sector mgr api fs porep miner staged prover ticket).1 = Except.ok meta ∧
      meta.pieces.map PieceMetadata.piece_key = staged.pieces.map PieceMetadata.piece_key ∧
      meta.pieces.map PieceMetadata.num_bytes = staged.pieces.map PieceMetadata.num_bytes ∧
      ∀ p ∈ meta.pieces, p.comm_p.isSome = true ∧ p.piece_inclusion_proof.isSome = true := by
  obtain ⟨ha, hb, hc⟩ := zip_pieces_spec staged.pieces output.comm_ps
    output.piece_inclusion_proofs hcs hps
  have heq : (seal_staged_sector mgr api fs porep miner staged prover ticket).1
      = Except.ok
        ⟨staged.sector_id, acc,
          ((staged.pieces.zip output.comm_ps).zip output.piece_inclusion_proofs).map
            (fun pp =>
              ({ piece_key := pp.1.1.piece_key
                 num_bytes := pp.1.1.num_bytes
                 comm_p := some pp.1.2
                 piece_inclusion_proof := some pp.2 } : PieceMetadata)),
          output.p_aux, output.comm_r, output.comm_d, output.proof, ck, n, ticket⟩ := by
    unfold seal_staged_sector create_seal_task_proto
    rw [halloc]
    simp only [Except.mapError, hseal, hck, hlen]
  exact ⟨_, heq, ha, hb, hc⟩

/-- C2 witness: concrete run of `seal_staged_sector` in which every
hypothesis of `seal_staged_sector_pieces` holds. -/
theorem seal_staged_sector_pieces_witness :
    (cMgr.new_sealed_sector_access "m" cStaged.sector_id = Except.ok "sa") ∧
    (cApiOk.«seal» cPorep (cMgr.staged_sector_path "m" cStaged.sector_access)
      (cMgr.sealed_sector_path "m" "sa") cProver cStaged.sector_id cTicket.ticket_bytes
      (cStaged.pieces.map (fun p => p.num_bytes)) = Except.ok cOutput) ∧
    (cFs.calculate_checksum (cMgr.sealed_sector_path "m" "sa")
      = Except.ok (List.replicate 32 8)) ∧
    (cFs.file_len (cMgr.sealed_sector_path "m" "sa") = Except.ok 1024) ∧
    (cOutput.comm_ps.length = cStaged.pieces.length) ∧
    (cOutput.piece_inclusion_proofs.length = cStaged.pieces.length) ∧
    (∃ meta : SealedSectorMetadata,
      (seal_staged_sector cMgr cApiOk cFs cPorep "m" cStaged cProver cTicket).1
        = Except.ok meta ∧
      meta.pieces.map PieceMetadata.piece_key = cStaged.pieces.map PieceMetadata.piece_key ∧
      meta.pieces.map PieceMetadata.num_bytes = cStaged.pieces.map PieceMetadata.num_bytes ∧
      ∀ p ∈ meta.pieces, p.comm_p.isSome = true ∧ p.piece_inclusion_proof.isSome = true) :=
  ⟨rfl, rfl, rfl, rfl, rfl, rfl,
    seal_staged_sector_pieces rfl rfl rfl rfl rfl rfl⟩

/-- C8 (amended C1 companion): once the sealed-sector access is allocated,
`seal_staged_sector` leaves the staged sector exactly as the input with its
status set to `Sealing(ticket)`; no later step of the call (seal, checksum,
file metadata), successful or failing, changes it, since the returned
sector does not depend on the proofs API or filesystem outcomes at all. -/
theorem seal_staged_sector_status_stays_sealing {mgr : SectorManager} {api : ProofsApi}
    {fs : FsOps} {porep : PoRepConfig} {miner : String} {staged : StagedSectorMetadata}
    {prover : List Nat} {ticket : SealTicket} {acc : String}
    (halloc : mgr.new_sealed_sector_access miner staged.sector_id = Except.ok acc) :
    (seal_staged_sector mgr api fs porep miner staged prover ticket).2
      = { staged with seal_status := SealStatus.Sealing ticket } := by
  unfold seal_staged_sector create_seal_task_proto
  rw [halloc]

/-- C8 witness: with the failing external seal, the returned staged sector
still carries status `Sealing(ticket)`. -/
theorem seal_staged_sector_status_stays_sealing_witness :
    (cMgr.new_sealed_sector_access "m" cStaged.sector_id = Except.ok "sa") ∧
    (seal_staged_sector cMgr cApiErr cFs cPorep "m" cStaged cProver cTicket).2
      = { cStaged with seal_status := SealStatus.Sealing cTicket } :=
  ⟨rfl, seal_staged_sector_status_stays_sealing rfl⟩

/-- C1 counterexample: at a concrete input where the external seal fails,
the staged sector's status is `Sealing(ticket)` — not `Failed(reason)` —
and the surfaced error is the `Unrecoverable` wrapper, which
`err_code_and_msg` classifies as a receiver error; the failure is treated
as fatal, contradicting the claim. -/
theorem seal_error_counterexample :
    SealStatus.isFailed
        (seal_staged_sector cMgr cApiErr cFs cPorep "m" cStaged cProver cTicket).2.seal_status
      = false ∧
    (seal_staged_sector cMgr cApiErr cFs cPorep "m" cStaged cProver cTicket).2.seal_status
      = SealStatus.Sealing cTicket ∧
    (seal_staged_sector cMgr cApiErr cFs cPorep "m" cStaged cProver cTicket).1
      = Except.error (Err.sectorBuilder (SectorBuilderErr.Unrecoverable "seal failed")) ∧
    (err_code_and_msg (Err.sectorBuilder (SectorBuilderErr.Unrecoverable "seal failed"))).1
      = FCPResponseStatus.FCPReceiverError :=
  ⟨rfl, rfl, rfl, rfl⟩

/-- C1 (amended): when the external seal reports an error during
`seal_staged_sector`, the sector's status remains `Sealing(ticket)` (it is
never set to `Failed`), and the error is surfaced wrapped as
`Unrecoverable`, which `err_code_and_msg` maps to the receiver-error
status. -/
theorem seal_error_is_unrecoverable {mgr : SectorManager} {api : ProofsApi} {fs : FsOps}
    {porep : PoRepConfig} {miner : String} {staged : StagedSectorMetadata}
    {prover : List Nat} {ticket : SealTicket} {acc : String} {e : Err}
    (halloc : mgr.new_sealed_sector_access miner staged.sector_id = Except.ok acc)
    (hseal : api.«seal» porep (mgr.staged_sector_path miner staged.sector_access)
      (mgr.sealed_sector_path miner acc) prover staged.sector_id ticket.ticket_bytes
      (staged.pieces.map (fun p => p.num_bytes)) = Except.error e) :
    (seal_staged_sector mgr api fs porep miner staged prover ticket).1
      = Except.error (err_unrecov e) ∧
    (seal_staged_sector mgr api fs porep miner staged prover ticket).2.seal_status
      = SealStatus.Sealing ticket ∧
    SealStatus.isFailed
        (seal_staged_sector mgr api fs porep miner staged prover ticket).2.seal_status
      = false ∧
    (err_code_and_msg (err_unrecov e)).1 = FCPResponseStatus.FCPReceiverError := by
  unfold seal_staged_sector create_seal_task_proto
  rw [halloc]
  simp [hseal, Except.mapError, err_code_and_msg, err_unrecov, SealStatus.isFailed]

/-- C1 witness: concrete instance of the amended claim with the failing
external seal. -/
theorem seal_error_is_unrecoverable_witness :
    (cMgr.new_sealed_sector_access "m" cStaged.sector_id = Except.ok "sa") ∧
    (cApiErr.«seal» cPorep (cMgr.staged_sector_path "m" cStaged.sector_access)
      (cMgr.sealed_sector_path "m" "sa") cProver cStaged.sector_id cTicket.ticket_bytes
      (cStaged.pieces.map (fun p => p.num_bytes))
      = Except.error (Err.other "seal failed")) ∧
    ((seal_staged_sector cMgr cApiErr cFs cPorep "m" cStaged cProver cTicket).1
      = Except.error (err_unrecov (Err.other "seal failed")) ∧
    (seal_staged_sector cMgr cApiErr cFs cPorep "m" cStaged cProver cTicket).2.seal_status
      = SealStatus.Sealing cTicket ∧
    SealStatus.isFailed
        (seal_staged_sector cMgr cApiErr cFs cPorep "m" cStaged cProver cTicket).2.seal_status
      = false ∧
    (err_code_and_msg (err_unrecov (Err.other "seal failed"))).1
      = FCPResponseStatus.FCPReceiverError) :=
  ⟨rfl, rfl, seal_error_is_unrecoverable rfl rfl⟩

/-- C5: `err_code_and_msg` assigns exactly one of three classes:
piece-not-found and overflow errors map to the caller-error status;
incomplete-write and unrecoverable errors map to the receiver-error status;
and an error matching none of the known variants maps to the
unclassified-error status. -/
theorem err_code_and_msg_classes :
    (∀ k : String, (err_code_and_msg (Err.sectorBuilder (SectorBuilderErr.PieceNotFound k))).1
        = FCPResponseStatus.FCPCallerError) ∧
    (∀ n m : Nat, (err_code_and_msg (Err.sectorBuilder (SectorBuilderErr.OverflowError n m))).1
        = FCPResponseStatus.FCPCallerError) ∧
    (∀ n m : Nat, (err_code_and_msg (Err.sectorBuilder (SectorBuilderErr.IncompleteWriteError n m))).1
        = FCPResponseStatus.FCPReceiverError) ∧
    (∀ m : String, (err_code_and_msg (Err.sectorBuilder (SectorBuilderErr.Unrecoverable m))).1
        = FCPResponseStatus.FCPReceiverError) ∧
    (∀ m : String, (err_code_and_msg (Err.other m)).1
        = FCPResponseStatus.FCPUnclassifiedError) ∧
    (∀ e : Err, (err_code_and_msg e).1 = FCPResponseStatus.FCPCallerError ∨
        (err_code_and_msg e).1 = FCPResponseStatus.FCPReceiverError ∨
        (err_code_and_msg e).1 = FCPResponseStatus.FCPUnclassifiedError) := by
  refine ⟨fun k => rfl, fun n m => rfl, fun n m => rfl, fun m => rfl, fun m => rfl, fun e => ?_⟩
  rcases e with sb | sm | m
  · rcases sb with _ | _ | _ | _ <;> simp [err_code_and_msg]
  · rcases sm with _ | _ | _ <;> simp [err_code_and_msg]
  · simp [err_code_and_msg]

/-- C3: on a sealed sector with pairwise-distinct piece keys containing a
piece with key `k`, `create_retrieve_piece_task_proto` issues an unseal
whose start byte is `get_piece_start_byte` applied to exactly the
`num_bytes` of the pieces strictly preceding the piece with key `k`, and
whose length is that piece's `num_bytes`. -/
theorem create_retrieve_piece_task_proto_range {mgr : SectorManager} {api : ProofsApi}
    {porep : PoRepConfig} {miner : String} {sealed : SealedSectorMetadata}
    {k : String} {pre post : List PieceMetadata} {piece : PieceMetadata} {acc : String}
    (hnd : (sealed.pieces.map PieceMetadata.piece_key).Nodup)
    (hsplit : sealed.pieces = pre ++ piece :: post)
    (hkey : piece.piece_key = k)
    (halloc : mgr.new_staging_sector_access miner sealed.sector_id true = Except.ok acc) :
    ∃ proto : UnsealTaskPrototype,
      create_retrieve_piece_task_proto mgr api porep miner sealed k = Except.ok proto ∧
      proto.piece_start_byte =
        api.get_piece_start_byte (pre.map (fun p => p.num_bytes)) piece.num_bytes ∧
      proto.piece_len = piece.num_bytes := by
  exact ⟨_, create_retrieve_proto_eq hnd hsplit hkey halloc, rfl, rfl⟩

/-- C3 witness: on the concrete three-piece sealed sector, the prototype
for key `"k"` starts at the sum mapping of the single preceding piece's
length and has the piece's length. -/
theorem create_retrieve_piece_task_proto_range_witness :
    ((cSealed.pieces.map PieceMetadata.piece_key).Nodup) ∧
    (cSealed.pieces =
      [(⟨"a", 127, some (List.replicate 32 11), some [21]⟩ : PieceMetadata)] ++
      (⟨"k", 500, some (List.replicate 32 12), some [22]⟩ : PieceMetadata) ::
      [(⟨"c", 64, some (List.replicate 32 13), some [23]⟩ : PieceMetadata)]) ∧
    (cMgr.new_staging_sector_access "m" cSealed.sector_id true = Except.ok "ua") ∧
    (∃ proto : UnsealTaskPrototype,
      create_retrieve_piece_task_proto cMgr cApiOk cPorep "m" cSealed "k"
        = Except.ok proto ∧
      proto.piece_start_byte = 127 ∧
      proto.piece_len = 500) :=
  ⟨by decide, rfl, rfl,
    create_retrieve_piece_task_proto_range (by decide)
      (show cSealed.pieces =
          [(⟨"a", 127, some (List.replicate 32 11), some [21]⟩ : PieceMetadata)] ++
          (⟨"k", 500, some (List.replicate 32 12), some [22]⟩ : PieceMetadata) ::
          [(⟨"c", 64, some (List.replicate 32 13), some [23]⟩ : PieceMetadata)]
        from rfl) rfl rfl⟩

/-- C4: `read_piece_from_sealed_sector` returns exactly the piece's
original bytes: under the assumption that the external unseal inverts the
external seal — instantiated as: the unseal of the piece's range succeeds
reporting the piece's length, and reading that many bytes from the
destination at offset `0` yields the piece's original content — the call
returns that content unchanged. -/
theorem read_piece_from_sealed_sector_roundtrip {mgr : SectorManager} {api : ProofsApi}
    {porep : PoRepConfig} {miner : String} {sealed : SealedSectorMetadata}
    {k : String} {pre post : List PieceMetadata} {piece : PieceMetadata} {acc : String}
    {prover : List Nat} {content : List Nat}
    (hnd : (sealed.pieces.map PieceMetadata.piece_key).Nodup)
    (hsplit : sealed.pieces = pre ++ piece :: post)
    (hkey : piece.piece_key = k)
    (halloc : mgr.new_staging_sector_access miner sealed.sector_id true = Except.ok acc)
    (hunseal : api.get_unsealed_range porep (mgr.sealed_sector_path miner sealed.sector_access)
      (mgr.staged_sector_path miner acc) prover sealed.sector_id sealed.comm_d
      sealed.seal_ticket.ticket_bytes
      (api.get_piece_start_byte (pre.map (fun p => p.num_bytes)) piece.num_bytes)
      piece.num_bytes = Except.ok piece.num_bytes)
    (hread : mgr.read_raw miner (mgr.staged_sector_path miner acc) 0 piece.num_bytes
      = Except.ok content) :
    read_piece_from_sealed_sector mgr api porep miner sealed k prover
      = Except.ok content := by
  unfold read_piece_from_sealed_sector
  rw [create_retrieve_proto_eq hnd hsplit hkey halloc]
  simp only [read_unsealed_bytes_from, Except.map, hunseal, hread]

/-- C4 witness: on the concrete sealed sector, reading piece `"k"` returns
the 500 original bytes the concrete store holds for it. -/
theorem read_piece_from_sealed_sector_roundtrip_witness :
    ((cSealed.pieces.map PieceMetadata.piece_key).Nodup) ∧
    (cMgr.new_staging_sector_access "m" cSealed.sector_id true = Except.ok "ua") ∧
    (cApiOk.get_unsealed_range cPorep (cMgr.sealed_sector_path "m" cSealed.sector_access)
      (cMgr.staged_sector_path "m" "ua") cProver cSealed.sector_id cSealed.comm_d
      cSealed.seal_ticket.ticket_bytes 127 500 = Except.ok 500) ∧
    (cMgr.read_raw "m" (cMgr.staged_sector_path "m" "ua") 0 500
      = Except.ok (List.replicate 500 5)) ∧
    (read_piece_from_sealed_sector cMgr cApiOk cPorep "m" cSealed "k" cProver
      = Except.ok (List.replicate 500 5)) :=
  ⟨by decide, rfl, rfl, rfl,
    read_piece_from_sealed_sector_roundtrip (by decide)
      (show cSealed.pieces =
          [(⟨"a", 127, some (List.replicate 32 11), some [21]⟩ : PieceMetadata)] ++
          (⟨"k", 500, some (List.replicate 32 12), some [22]⟩ : PieceMetadata) ::
          [(⟨"c", 64, some (List.replicate 32 13), some [23]⟩ : PieceMetadata)]
        from rfl) rfl rfl rfl rfl⟩

/-- C6: the hydration check of engine construction succeeds exactly when
all four parameter-cache files (PoRep verifying key, PoRep Groth
parameters, PoSt verifying key, PoSt Groth parameters) exist, are regular
files, and are non-empty; and `SimpleSectorBuilder::new` succeeds exactly
when the hydration check does, so a deficient file makes construction
error out. -/
theorem parameter_cache_hydration_iff :
    ∀ (stat : String → Option FileMetadata) (sc : SectorClassPaths) (maxs : Nat)
      (kv_get : SnapshotKey → Option SectorBuilderState) (last : Nat)
      (pid : List Nat) (ssize maxb : Nat),
      isOkB (ensure_parameter_cache_hydrated stat sc)
        = (goodFile stat sc.porep_cache_key && goodFile stat sc.porep_cache_params &&
           goodFile stat sc.post_cache_key && goodFile stat sc.post_cache_params) ∧
      isOkB (SimpleSectorBuilder_new stat sc maxs)
        = isOkB (ensure_parameter_cache_hydrated stat sc) ∧
      isOkB (init_from_metadata stat sc kv_get last pid ssize maxs maxb)
        = isOkB (ensure_parameter_cache_hydrated stat sc) := by
  intro stat sc maxs kv_get last pid ssize maxb
  have hfile : ∀ p : String, isOkB (ensure_file stat p) = goodFile stat p := by
    intro p
    unfold ensure_file goodFile
    cases h : stat p with
    | none => simp [isOkB]
    | some m =>
      cases hif : m.is_file <;> cases hlen : decide (m.len > 0) <;>
        simp [isOkB, hif, hlen]
  constructor
  · unfold ensure_parameter_cache_hydrated
    rw [← hfile sc.porep_cache_key, ← hfile sc.porep_cache_params,
      ← hfile sc.post_cache_key, ← hfile sc.post_cache_params]
    cases h1 : ensure_file stat sc.porep_cache_key <;>
      cases h2 : ensure_file stat sc.porep_cache_params <;>
        cases h3 : ensure_file stat sc.post_cache_key <;>
          cases h4 : ensure_file stat sc.post_cache_params <;>
            simp [isOkB]
  · constructor
    · unfold SimpleSectorBuilder_new
      cases h : ensure_parameter_cache_hydrated stat sc <;> simp [isOkB]
    · unfold init_from_metadata
      cases h : ensure_parameter_cache_hydrated stat sc <;> simp [isOkB]

/-- C7: when the parameter-cache check passes, `init_from_metadata`
constructs its engine state from the snapshot persisted under
`(prover_id, sector_size)` when one exists (a restart resumes from the
last snapshotted state), and otherwise from the fresh state, whose
`last_committed_sector_id` is the supplied value and whose staged and
sealed maps are empty. -/
theorem init_from_metadata_state_eq {stat : String → Option FileMetadata}
    {sc : SectorClassPaths}
    (kv_get : SnapshotKey → Option SectorBuilderState) (last : Nat)
    (pid : List Nat) (ssize maxs maxb : Nat)
    (hhyd : ensure_parameter_cache_hydrated stat sc = Except.ok ()) :
    init_from_metadata stat sc kv_get last pid ssize maxs maxb
      = Except.ok
        { state := (kv_get (SnapshotKey.mk pid ssize)).getD (SectorBuilderState.new last)
          max_num_staged_sectors := maxs
          max_user_bytes_per_staged_sector := maxb
          prover_id := pid
          sector_size := ssize } ∧
    (SectorBuilderState.new last).last_committed_sector_id = last ∧
    (SectorBuilderState.new last).staged = [] ∧
    (SectorBuilderState.new last).sealed = [] := by
  refine ⟨?_, rfl, rfl, rfl⟩
  unfold init_from_metadata
  rw [hhyd]
  cases h : kv_get (SnapshotKey.mk pid ssize) <;> simp [h]

/-- C7 witness: with a hydrated cache and a store holding one snapshot
under the key of prover `cProver` at sector size `1024`, restart at that
key resumes from the stored snapshot, while a different sector size yields
the fresh state with the supplied last committed id. -/
theorem init_from_metadata_state_eq_witness :
    (ensure_parameter_cache_hydrated cStatGood
      (SectorClassPaths.mk "prk" "prp" "psk" "psp") = Except.ok ()) ∧
    (init_from_metadata cStatGood (SectorClassPaths.mk "prk" "prp" "psk" "psp")
        cKv 7 cProver 1024 10 1016
      = Except.ok
        { state := { staged := [(1, cStaged)], sealed := [], last_committed_sector_id := 5 }
          max_num_staged_sectors := 10
          max_user_bytes_per_staged_sector := 1016
          prover_id := cProver
          sector_size := 1024 }) ∧
    (init_from_metadata cStatGood (SectorClassPaths.mk "prk" "prp" "psk" "psp")
        cKv 7 cProver 2048 10 1016
      = Except.ok
        { state := SectorBuilderState.new 7
          max_num_staged_sectors := 10
          max_user_bytes_per_staged_sector := 1016
          prover_id := cProver
          sector_size := 2048 }) :=
  ⟨rfl,
    (init_from_metadata_state_eq cKv 7 cProver 1024 10 1016
      (show ensure_parameter_cache_hydrated cStatGood
          (SectorClassPaths.mk "prk" "prp" "psk" "psp") = Except.ok () from rfl)).1,
    (init_from_metadata_state_eq cKv 7 cProver 2048 10 1016
      (show ensure_parameter_cache_hydrated cStatGood
          (SectorClassPaths.mk "prk" "prp" "psk" "psp") = Except.ok () from rfl)).1⟩

/-- C9: `into_sealed_sector_metadata` always returns metadata whose
`blake2b_checksum` is the default (empty) value and whose `len` is `0`,
whatever the FFI input holds, so checksum and on-disk length never survive
the FFI round trip. -/
theorem into_sealed_sector_metadata_drops_checksum_and_len :
    ∀ s : FFISealedSectorMetadata,
      (into_sealed_sector_metadata s).blake2b_checksum = [] ∧
      (into_sealed_sector_metadata s).len = 0 := by
  intro s
  exact ⟨rfl, rfl⟩

/-- C10: both FFI piece conversions render an absent `comm_p` as the
all-zero 32-byte array and an absent inclusion proof as the null pointer
with length `0`; consequently a piece without a commitment converts to
exactly the same FFI value as the same piece whose commitment is 32 zero
bytes, for each of the two conversion functions. -/
theorem ffi_piece_metadata_none_comm_p_indistinguishable :
    ∀ (key : String) (n : Nat) (pip : Option (List Nat)) (cp : Option (List Nat)),
      (into_ffi_piece_metadata ⟨key, n, none, pip⟩).comm_p = List.replicate 32 0 ∧
      (into_ffi_piece_metadata ⟨key, n, cp, none⟩).piece_inclusion_proof = none ∧
      (ffiPieceMetadataFrom ⟨key, n, none, pip⟩).comm_p = List.replicate 32 0 ∧
      (ffiPieceMetadataFrom ⟨key, n, cp, none⟩).piece_inclusion_proof = none ∧
      into_ffi_piece_metadata ⟨key, n, none, pip⟩
        = into_ffi_piece_metadata ⟨key, n, some (List.replicate 32 0), pip⟩ ∧
      ffiPieceMetadataFrom ⟨key, n, none, pip⟩
        = ffiPieceMetadataFrom ⟨key, n, some (List.replicate 32 0), pip⟩ := by
  intro key n pip cp
  exact ⟨rfl, rfl, rfl, rfl, rfl, rfl⟩

end SectorBuilderClaims
